import Mathlib

/-!
Shallow embedding of the attendance/payroll core of the `faceid` repository:
the schedule resolution and payroll engine of `api/routes/salary.py`, the
attendance event processor of `api/services/attendance_service.py`, and the
leave ledger of `api/routes/attendance.py` (models from `api/database.py`).

Conventions of the embedding:
* Python `datetime.date` values are `Date` triples (proleptic Gregorian);
  `Date.toOrdinal` matches Python's `date.toordinal` and `Date.isoweekday`
  matches `date.isoweekday` (1 = Monday .. 7 = Sunday).  Python compares and
  iterates dates in ordinal order, which the embedding mirrors.
* Times of day are seconds after local midnight (`Nat`); timestamps are a
  date plus seconds after midnight, all in the single fixed company timezone
  (`Asia/Tashkent`), so `pytz.localize` is the identity of the model and
  `parse_time_field` (identity on `time` objects, `None` on `None`) is the
  identity on `Option Nat`.
* Monetary amounts (Python floats) are modelled as exact rationals `ℚ`.
  The route layer wraps some returned fields in `round(x, 2)` purely for
  display; the embedding keeps the computed (pre-display) values, which are
  the values every formula of the engine operates on.
* Each SQLAlchemy query over rows of one employee is modelled by passing the
  employee-scoped table as a `List` and applying the query's filter to it;
  `query.first()` is `List.find?`, and a Python dict built by assignment in
  a loop is looked up through `List.reverse.find?` (last assignment wins).
* Python's `int(x)` on the non-negative floats produced here is `Nat`
  floor division after scaling minutes to seconds.
-/

namespace FaceId

/-! ## Calendar (Python `datetime.date`) -/

structure Date where
  year : Nat
  month : Nat
  day : Nat
deriving DecidableEq, Repr

def isLeapYear (y : Nat) : Bool :=
  (y % 4 == 0 && y % 100 != 0) || y % 400 == 0

/-- `calendar.monthrange(y, m)[1]`: the number of days of month `m` of year `y`. -/
def daysInMonth (y m : Nat) : Nat :=
  if m == 2 then (if isLeapYear y then 29 else 28)
  else if m == 4 || m == 6 || m == 9 || m == 11 then 30
  else 31

def daysBeforeMonth (y m : Nat) : Nat :=
  (List.range (m - 1)).foldl (fun acc i => acc + daysInMonth y (i + 1)) 0

/-- Python `date.toordinal`: day 1 is 0001-01-01. -/
def Date.toOrdinal (d : Date) : Nat :=
  365 * (d.year - 1) + (d.year - 1) / 4 - (d.year - 1) / 100 + (d.year - 1) / 400
    + daysBeforeMonth d.year d.month + d.day

/-- Python `date.isoweekday`: 1 = Monday .. 7 = Sunday. -/
def Date.isoweekday (d : Date) : Nat :=
  (d.toOrdinal + 6) % 7 + 1

/-- Python date ordering (`<=` on `datetime.date`). -/
def Date.le (a b : Date) : Bool := a.toOrdinal ≤ b.toOrdinal

/-- Python date ordering (`<` on `datetime.date`). -/
def Date.lt (a b : Date) : Bool := a.toOrdinal < b.toOrdinal

/-- Python `min(a, b)` on dates. -/
def Date.minD (a b : Date) : Date := if Date.le a b then a else b

/-- Python `d + timedelta(days=1)`. -/
def Date.next (d : Date) : Date :=
  if d.day < daysInMonth d.year d.month then ⟨d.year, d.month, d.day + 1⟩
  else if d.month < 12 then ⟨d.year, d.month + 1, 1⟩
  else ⟨d.year + 1, 1, 1⟩

/-- `date(d.year, d.month, 1)`. -/
def Date.monthFirst (d : Date) : Date := ⟨d.year, d.month, 1⟩

/-- `date(d.year, d.month, calendar.monthrange(...)[1])`. -/
def Date.monthLast (d : Date) : Date := ⟨d.year, d.month, daysInMonth d.year d.month⟩

/-- A timezone-aware Python `datetime` in the company's local timezone:
a calendar date plus seconds after local midnight. -/
structure Timestamp where
  date : Date
  sec : Nat
deriving DecidableEq, Repr

/-- Seconds on the absolute timeline, for timestamp differences. -/
def Timestamp.toSec (t : Timestamp) : Int :=
  (t.date.toOrdinal : Int) * 86400 + (t.sec : Int)

/-! ## Data model (`api/database.py`) -/

/-- `EmployeeSchedule` row: weekly schedule entry for one weekday.
`work_start_time` / `work_end_time` are seconds after midnight. -/
structure EmployeeSchedule where
  day_of_week : Nat
  work_start_time : Option Nat
  work_end_time : Option Nat
  is_day_off : Bool
deriving DecidableEq, Repr

/-- `Employee` row (the fields the attendance/payroll core reads). -/
structure Employee where
  work_start_time : Option Nat
  work_end_time : Option Nat
  lunch_break_duration : Option Int
  hire_date : Option Date
  salary : Option ℚ
  salary_type : Option String
deriving DecidableEq

/-- `AttendanceLog` row for one employee. -/
structure AttendanceLog where
  date : Date
  check_in_time : Option Timestamp
  check_out_time : Option Timestamp
  late_minutes : Option Int
  early_leave_minutes : Option Int
  overtime_minutes : Option Int
  total_work_minutes : Option Int
  device_name : Option String
  ip_address : Option String
  verify_mode : Option String
deriving DecidableEq, Repr

/-- `EmployeeLeave` row for one employee (`leave_type` is `'rest'` or `'sick'`). -/
structure EmployeeLeave where
  id : Nat
  date : Date
  leave_type : String
  reason : String
deriving DecidableEq, Repr

/-- `Penalty` row for one employee. -/
structure Penalty where
  date : Date
  amount : ℚ
  is_waived : Bool
  is_excused : Bool
deriving DecidableEq

/-- `Bonus` row for one employee. -/
structure Bonus where
  date : Date
  amount : ℚ
deriving DecidableEq

/-- `CompanySettings` row (the fields the core reads). -/
structure CompanySettings where
  late_threshold_minutes : Nat
  auto_penalty_enabled : Bool
  late_penalty_per_minute : ℚ
  absence_penalty_amount : ℚ
deriving DecidableEq

/-! ## Schedule resolution, attendance-service side
(`attendance_service.get_employee_work_time_for_date`) -/

/-- `get_employee_work_time_for_date(employee, check_date)`: look up the
`EmployeeSchedule` row for the date's weekday; fall back to the employee's
default work times with `is_day_off = False` when no row exists. -/
def get_employee_work_time_for_date (employee : Employee)
    (schedules : List EmployeeSchedule) (check_date : Date) :
    Option Nat × Option Nat × Bool :=
  let day_of_week := check_date.isoweekday
  match schedules.find? (fun s => s.day_of_week == day_of_week) with
  | some schedule => (schedule.work_start_time, schedule.work_end_time, schedule.is_day_off)
  | none => (employee.work_start_time, employee.work_end_time, false)

/-! ## Schedule resolution, payroll side (`salary.get_employee_expected_days`) -/

/-- One value of the `schedule_dict` that `get_employee_expected_days` builds:
the `'start'`/`'end'`/`'is_off'` entries. -/
structure DaySched where
  start : Option Nat
  stop : Option Nat
  is_off : Bool
deriving DecidableEq, Repr

/-- The hard-coded `default_schedule` dict of `get_employee_expected_days`
(Mon-Fri 09:00-18:00 working, Sat/Sun off). -/
def default_schedule (day_of_week : Nat) : Option DaySched :=
  if 1 ≤ day_of_week ∧ day_of_week ≤ 5 then some ⟨some 32400, some 64800, false⟩
  else if day_of_week = 6 ∨ day_of_week = 7 then some ⟨none, none, true⟩
  else none

/-- The `schedule_dict` of `get_employee_expected_days`: entries from the
employee's `EmployeeSchedule` rows (dict assignment in a loop: the last row
for a weekday wins), replaced wholesale by `default_schedule` when the
employee has no rows at all. -/
def schedule_dict_entry (schedules : List EmployeeSchedule) (day_of_week : Nat) :
    Option DaySched :=
  if schedules.isEmpty then default_schedule day_of_week
  else (schedules.reverse.find? (fun s => s.day_of_week == day_of_week)).map
    (fun s => ⟨s.work_start_time, s.work_end_time, s.is_day_off⟩)

/-- `schedule_dict.get(day_of_week, {'is_off': True})['is_off']`: the
off-day test the expected-day counting loop applies. -/
def expected_is_off (schedules : List EmployeeSchedule) (day_of_week : Nat) : Bool :=
  match schedule_dict_entry schedules day_of_week with
  | some e => e.is_off
  | none => true

/-- The counting loop of `get_employee_expected_days`, running over exactly
the days of `[calc_start, calc_end]` (the fuel is the number of days). -/
def count_expected_go (isOff : Nat → Bool) (current : Date) : Nat → Nat
  | 0 => 0
  | n + 1 =>
    (if isOff current.isoweekday then 0 else 1) + count_expected_go isOff current.next n

/-- `while current <= calc_end:` — count the non-off days of
`[calc_start, calc_end]` (empty when `calc_start > calc_end`). -/
def count_expected_days (isOff : Nat → Bool) (calc_start calc_end : Date) : Nat :=
  count_expected_go isOff calc_start (calc_end.toOrdinal + 1 - calc_start.toOrdinal)

/-- `get_employee_expected_days(employee, start_date, end_date, for_daily_rate)`
(the returned count; `today` is `date.today()`, passed explicitly). -/
def get_employee_expected_days (schedules : List EmployeeSchedule)
    (start_date end_date : Date) (for_daily_rate : Bool) (today : Date) : Nat :=
  let calc_start := if for_daily_rate then start_date.monthFirst else start_date
  let calc_end := if for_daily_rate then start_date.monthLast else end_date.minD today
  count_expected_days (expected_is_off schedules) calc_start calc_end

/-! ## Python truthiness helpers (`x or default`) -/

/-- Python `x or default` for an optional string (`''` is falsy). -/
def pyOrStr (o : Option String) (d : String) : String :=
  match o with
  | none => d
  | some s => if s == "" then d else s

/-- Python `x or default` for an optional integer (`0` is falsy). -/
def pyOrInt (o : Option Int) (d : Int) : Int :=
  match o with
  | none => d
  | some x => if x == 0 then d else x

/-- Replace the first element satisfying `p` (the row SQLAlchemy's
`query.first()` returned, mutated in place and committed). -/
def updateFirst (p : α → Bool) (f : α → α) : List α → List α
  | [] => []
  | a :: as => if p a then f a :: as else a :: updateFirst p f as

/-! ## Attendance event processor (`attendance_service.py`) -/

structure DeviceInfo where
  device_name : Option String
  ip_address : Option String
  verify_mode : Option String
deriving DecidableEq, Repr

/-- `device_info` assignment at the end of `process_check_in`. -/
def apply_device_info (log : AttendanceLog) (device_info : Option DeviceInfo) :
    AttendanceLog :=
  match device_info with
  | some d => { log with
      device_name := d.device_name
      ip_address := d.ip_address
      verify_mode := d.verify_mode }
  | none => log

/-- `company_settings.late_threshold_minutes if company_settings else 15`. -/
def grace_period_of (company_settings : Option CompanySettings) : Nat :=
  match company_settings with
  | some cs => cs.late_threshold_minutes
  | none => 15

/-- The lateness computation of `process_check_in`: zero when there is no
scheduled start or the day is off; otherwise
`int(time_diff − grace)` when `time_diff > grace`, where `time_diff` is the
number of minutes from the scheduled start to the check-in. -/
def late_minutes_for (work_start : Option Nat) (is_day_off : Bool)
    (grace_period : Nat) (check_in_time : Timestamp) : Int :=
  match work_start with
  | some ws =>
    if is_day_off then 0
    else
      let time_diff_sec : Int := (check_in_time.sec : Int) - (ws : Int)
      if 60 * (grace_period : Int) < time_diff_sec then
        ((time_diff_sec - 60 * (grace_period : Int)).toNat / 60 : Nat)
      else 0
  | none => 0

/-- `process_check_in(employee, check_in_time, device_info)` over the
employee's attendance rows: returns the new table and the returned record. -/
def process_check_in (employee : Employee) (schedules : List EmployeeSchedule)
    (company_settings : Option CompanySettings) (logs : List AttendanceLog)
    (check_in_time : Timestamp) (device_info : Option DeviceInfo) :
    List AttendanceLog × AttendanceLog :=
  let check_date := check_in_time.date
  let wt := get_employee_work_time_for_date employee schedules check_date
  let work_start := wt.1
  let is_day_off := wt.2.2
  match logs.find? (fun l => l.date == check_date) with
  | some existing_log =>
    if existing_log.check_in_time.isSome then
      -- duplicate check-in: rejected silently, existing record returned unchanged
      (logs, existing_log)
    else
      let late := late_minutes_for work_start is_day_off
        (grace_period_of company_settings) check_in_time
      let upd := fun (x : AttendanceLog) =>
        apply_device_info
          { x with check_in_time := some check_in_time, late_minutes := some late }
          device_info
      (updateFirst (fun l => l.date == check_date) upd logs, upd existing_log)
  | none =>
    let late := late_minutes_for work_start is_day_off
      (grace_period_of company_settings) check_in_time
    let new_log := apply_device_info
      { date := check_date
        check_in_time := some check_in_time
        check_out_time := none
        late_minutes := some late
        early_leave_minutes := some 0
        overtime_minutes := some 0
        total_work_minutes := some 0
        device_name := none
        ip_address := none
        verify_mode := none } device_info
    (logs ++ [new_log], new_log)

inductive CheckOutError
  | no_check_in_record   -- "No check-in record found for today"
  | no_check_in_time     -- "Check-in time not found"
deriving DecidableEq, Repr

/-- `process_check_out(employee, check_out_time)` over the employee's
attendance rows: the new table and the returned record, or the error. -/
def process_check_out (employee : Employee) (schedules : List EmployeeSchedule)
    (logs : List AttendanceLog) (check_out_time : Timestamp) :
    Except CheckOutError (List AttendanceLog × AttendanceLog) :=
  let check_date := check_out_time.date
  match logs.find? (fun l => l.date == check_date) with
  | none => .error .no_check_in_record
  | some attendance_log =>
    match attendance_log.check_in_time with
    | none => .error .no_check_in_time
    | some check_in =>
      let wt := get_employee_work_time_for_date employee schedules check_date
      let work_end := wt.2.1
      let is_day_off := wt.2.2
      let work_duration_sec : Int := check_out_time.toSec - check_in.toSec
      let lunch_break : Int := pyOrInt employee.lunch_break_duration 60
      -- total_work_minutes = int(work_duration − lunch_break), floored at 0
      let twm_raw : Int := work_duration_sec - 60 * lunch_break
      let total_work_minutes : Int :=
        if twm_raw < 0 then 0 else (twm_raw.toNat / 60 : Nat)
      let eo : Int × Int :=
        match work_end with
        | some we =>
          if is_day_off then (0, 0)
          else
            let time_diff_sec : Int := (check_out_time.sec : Int) - (we : Int)
            if time_diff_sec < 0 then
              (((-time_diff_sec).toNat / 60 : Nat), 0)     -- left early
            else (0, (time_diff_sec.toNat / 60 : Nat))     -- overtime
        | none => (0, 0)
      let upd := fun (x : AttendanceLog) =>
        { x with
          check_out_time := some check_out_time
          total_work_minutes := some total_work_minutes
          early_leave_minutes := some eo.1
          overtime_minutes := some eo.2 }
      .ok (updateFirst (fun l => l.date == check_date) upd logs, upd attendance_log)

/-! ## Leave ledger (`attendance.set_employee_leave`) -/

def MONTHLY_REST_LIMIT : Nat := 2
def MONTHLY_SICK_LIMIT : Nat := 20

inductive LeaveOutcome
  | noop              -- "Leave already set for this date"
  | updated
  | created
  | quota_exceeded    -- the rejected write (the spec's QuotaExceededError)
deriving DecidableEq, Repr

/-- `set_employee_leave` over the employee's leave rows (`leave_type` has
already been validated to be `'rest'` or `'sick'` by the route): the outcome
and the resulting ledger.  `new_id` is the id a freshly created row gets. -/
def set_employee_leave (ledger : List EmployeeLeave) (leave_date : Date)
    (leave_type : String) (reason : String) (new_id : Nat) :
    LeaveOutcome × List EmployeeLeave :=
  let start_date := leave_date.monthFirst
  let end_date := leave_date.monthLast
  let existing_leaves := ledger.filter
    (fun l => Date.le start_date l.date && Date.le l.date end_date)
  match ledger.find? (fun l => l.date == leave_date) with
  | some existing_for_date =>
    if existing_for_date.leave_type == leave_type then
      (.noop, ledger)
    else if leave_type == "rest" then
      if MONTHLY_REST_LIMIT ≤ (existing_leaves.filter
          (fun l => l.leave_type == "rest" && l.id != existing_for_date.id)).length then
        (.quota_exceeded, ledger)
      else
        (.updated, updateFirst (fun l => l.date == leave_date)
          (fun l => { l with leave_type := leave_type, reason := reason }) ledger)
    else
      if MONTHLY_SICK_LIMIT ≤ (existing_leaves.filter
          (fun l => l.leave_type == "sick" && l.id != existing_for_date.id)).length then
        (.quota_exceeded, ledger)
      else
        (.updated, updateFirst (fun l => l.date == leave_date)
          (fun l => { l with leave_type := leave_type, reason := reason }) ledger)
  | none =>
    if leave_type == "rest" then
      if MONTHLY_REST_LIMIT ≤ (existing_leaves.filter
          (fun l => l.leave_type == "rest")).length then
        (.quota_exceeded, ledger)
      else
        (.created, ledger ++ [⟨new_id, leave_date, leave_type, reason⟩])
    else
      if MONTHLY_SICK_LIMIT ≤ (existing_leaves.filter
          (fun l => l.leave_type == "sick")).length then
        (.quota_exceeded, ledger)
      else
        (.created, ledger ++ [⟨new_id, leave_date, leave_type, reason⟩])

/-- The monthly quota for a leave type (rest: 2, sick: 20). -/
def monthly_limit_for (leave_type : String) : Nat :=
  if leave_type == "rest" then MONTHLY_REST_LIMIT else MONTHLY_SICK_LIMIT

/-! ## Payroll engine (`salary.calculate_employee_salary`)

The Python function computes one quantity after another into local variables
and finally packs them into a result dict.  The embedding gives each local
variable a top-level definition (over the same inputs) and
`calculate_employee_salary` assembles the result record from them; the
date-range queries become list filters over the employee-scoped tables. -/

/-- The employee-scoped tables (plus `date.today()`), as the engine reads them. -/
structure Db where
  schedules : List EmployeeSchedule
  attendance_logs : List AttendanceLog
  leaves : List EmployeeLeave
  penalties : List Penalty
  bonuses : List Bonus
  today : Date

/-- `date >= start_date AND date <= end_date` of the range queries. -/
def in_range (s e d : Date) : Bool := Date.le s d && Date.le d e

/-- `employee.salary or 0`. -/
def base_salary_of (employee : Employee) : ℚ := employee.salary.getD 0

/-- `employee.salary_type or 'monthly'`. -/
def salary_type_of (employee : Employee) : String := pyOrStr employee.salary_type "monthly"

def is_monthly (employee : Employee) : Bool := salary_type_of employee == "monthly"

/-- `get_employee_leaves_for_period`: the leave rows of `[start, end]`. -/
def leaves_for_period (leaves : List EmployeeLeave) (s e : Date) : List EmployeeLeave :=
  leaves.filter (fun l => in_range s e l.date)

def rest_count_of (db : Db) (s e : Date) : Nat :=
  (leaves_for_period db.leaves s e).countP (fun l => l.leave_type == "rest")

def sick_count_of (db : Db) (s e : Date) : Nat :=
  (leaves_for_period db.leaves s e).countP (fun l => l.leave_type == "sick")

def leave_total_of (db : Db) (s e : Date) : Nat :=
  rest_count_of db s e + sick_count_of db s e

/-- The `dates` dict of `get_employee_leaves_for_period`
(`{date.isoformat(): leave_type}`; a later row for the same date wins). -/
def leave_lookup_of (db : Db) (s e : Date) : Date → Option String :=
  fun d => ((leaves_for_period db.leaves s e).reverse.find?
    (fun l => l.date == d)).map (fun l => l.leave_type)

/-- The attendance-log range query of `calculate_employee_salary`. -/
def attendance_logs_of (db : Db) (s e : Date) : List AttendanceLog :=
  db.attendance_logs.filter (fun g => in_range s e g.date)

def worked_days_of (db : Db) (s e : Date) : Nat := (attendance_logs_of db s e).length

/-- `sum(log.total_work_minutes or 0 for log in attendance_logs)`. -/
def total_work_minutes_of (db : Db) (s e : Date) : Int :=
  ((attendance_logs_of db s e).map (fun g => g.total_work_minutes.getD 0)).sum

/-- The second `schedule_dict` of `calculate_employee_salary`
(`{day_of_week: is_day_off}`; `{1..5: False, 6: True, 7: True}` when the
employee has no rows; looked up with `.get(day_of_week, False)`). -/
def late_class_is_off (schedules : List EmployeeSchedule) (day_of_week : Nat) : Bool :=
  if schedules.isEmpty then day_of_week == 6 || day_of_week == 7
  else
    match schedules.reverse.find? (fun s => s.day_of_week == day_of_week) with
    | some s => s.is_day_off
    | none => false

/-- The bucket the lateness-classification loop assigns to a date (the
`if is_off_day / elif is_before_hire / elif is_leave_day / else` chain;
it depends only on the log's date). -/
inductive LateBucket
  | off_day
  | before_hire
  | leave (leave_type : String)
  | counted
deriving DecidableEq, Repr

def classify_late (schedules : List EmployeeSchedule) (hire_date : Option Date)
    (leave_lookup : Date → Option String) (d : Date) : LateBucket :=
  if late_class_is_off schedules d.isoweekday then .off_day
  else if (match hire_date with | some h => Date.lt d h | none => false) then .before_hire
  else
    match leave_lookup d with
    | some lt => .leave lt
    | none => .counted

def classify_of (employee : Employee) (db : Db) (s e : Date) : Date → LateBucket :=
  classify_late db.schedules employee.hire_date (leave_lookup_of db s e)

/-- The logs the classification loop processes:
`if log.late_minutes and log.late_minutes > 0`. -/
def late_logs_of (db : Db) (s e : Date) : List AttendanceLog :=
  (attendance_logs_of db s e).filter (fun g => 0 < g.late_minutes.getD 0)

structure LateDetail where
  date : Date
  late_minutes : Int
  check_in_time : Option Timestamp
deriving DecidableEq, Repr

/-- An `excused_days` entry (`reason_text` is presentational and omitted;
`typ` models the `'type': 'absence'` key, absent on lateness entries). -/
structure ExcusedEntry where
  date : Date
  reason : String
  late_minutes : Int
  penalty_saved : ℚ
  typ : Option String
deriving DecidableEq, Repr

/-- `total_late_minutes`: the loop accumulates the late minutes of the
dates classified `counted`. -/
def total_late_minutes_of (employee : Employee) (db : Db) (s e : Date) : Int :=
  (((late_logs_of db s e).filter
      (fun g => classify_of employee db s e g.date == .counted)).map
    (fun g => g.late_minutes.getD 0)).sum

/-- `late_details`: the entries appended for `counted` dates. -/
def late_details_of (employee : Employee) (db : Db) (s e : Date) : List LateDetail :=
  (late_logs_of db s e).filterMap (fun g =>
    if classify_of employee db s e g.date == .counted then
      some ⟨g.date, g.late_minutes.getD 0, g.check_in_time⟩
    else none)

/-- `excused_days` right after the classification loop (each excused bucket
appends an entry with `penalty_saved = 0`, updated later). -/
def excused_late_of (employee : Employee) (db : Db) (s e : Date) : List ExcusedEntry :=
  (late_logs_of db s e).filterMap (fun g =>
    match classify_of employee db s e g.date with
    | .off_day => some ⟨g.date, "off_day", g.late_minutes.getD 0, 0, none⟩
    | .before_hire => some ⟨g.date, "before_hire", g.late_minutes.getD 0, 0, none⟩
    | .leave lt => some ⟨g.date, lt, g.late_minutes.getD 0, 0, none⟩
    | .counted => none)

/-- The `late_penalty_per_minute` local (0 unless settings exist and
`auto_penalty_enabled`). -/
def late_penalty_per_minute_of (company_settings : Option CompanySettings) : ℚ :=
  match company_settings with
  | some cs => if cs.auto_penalty_enabled then cs.late_penalty_per_minute else 0
  | none => 0

/-- `auto_late_penalty = total_late_minutes * late_penalty_per_minute` when
the rate and the total are positive, else 0. -/
def auto_late_penalty_of (employee : Employee) (db : Db) (s e : Date)
    (company_settings : Option CompanySettings) : ℚ :=
  let lppm := late_penalty_per_minute_of company_settings
  let total := total_late_minutes_of employee db s e
  if 0 < lppm ∧ 0 < total then (total : ℚ) * lppm else 0

/-- The `penalty_saved` fix-up loop: when the rate is positive, every excused
entry gets `penalty_saved = late_minutes * late_penalty_per_minute`. -/
def excused_with_rate (lppm : ℚ) (es : List ExcusedEntry) : List ExcusedEntry :=
  if 0 < lppm then
    es.map (fun ex => { ex with penalty_saved := (ex.late_minutes : ℚ) * lppm })
  else es

/-- Non-waived, non-excused penalty rows of the range, summed. -/
def manual_penalty_amount_of (db : Db) (s e : Date) : ℚ :=
  ((db.penalties.filter
      (fun p => in_range s e p.date && !p.is_waived && !p.is_excused)).map
    (fun p => p.amount)).sum

def penalty_count_of (db : Db) (s e : Date) : Nat :=
  (db.penalties.filter
    (fun p => in_range s e p.date && !p.is_waived && !p.is_excused)).length

/-- Bonus rows of the range, summed. -/
def total_bonus_amount_of (db : Db) (s e : Date) : ℚ :=
  ((db.bonuses.filter (fun b => in_range s e b.date)).map (fun b => b.amount)).sum

def bonus_count_of (db : Db) (s e : Date) : Nat :=
  (db.bonuses.filter (fun b => in_range s e b.date)).length

/-! ### Monthly-branch quantities -/

/-- STEP 1: daily-rate basis over the full month of `start_date`. -/
def full_month_work_days_of (db : Db) (s e : Date) : Nat :=
  get_employee_expected_days db.schedules s e true db.today

/-- `daily_rate = base_salary / full_month_work_days` (0 on a zero count). -/
def daily_rate_monthly (base_salary : ℚ) (full_month_work_days : Nat) : ℚ :=
  if 0 < full_month_work_days then base_salary / (full_month_work_days : ℚ)
  else 0

/-- `actual_end_date = min(end_date, today)`. -/
def actual_end_date_of (db : Db) (e : Date) : Date := e.minD db.today

/-- `effective_start_date = max(start_date, hire_date)` when a hire date
exists and `start_date` precedes it (`max(s, h)` with `s < h` is `h`). -/
def effective_start_date_of (employee : Employee) (s : Date) : Date :=
  match employee.hire_date with
  | some h => if Date.lt s h then h else s
  | none => s

/-- STEP 2: expected work days of the effective period. -/
def period_expected_days_of (employee : Employee) (db : Db) (s e : Date) : Nat :=
  get_employee_expected_days db.schedules (effective_start_date_of employee s)
    (actual_end_date_of db e) false db.today

/-- `actual_absence_days = max(0, period_expected_days − worked_days − leave_days_count)`. -/
def actual_absence_days_of (employee : Employee) (db : Db) (s e : Date) : Nat :=
  (max 0 ((period_expected_days_of employee db s e : Int)
    - (worked_days_of db s e : Int) - (leave_total_of db s e : Int))).toNat

/-- The `absence_penalty_per_day` local (0 unless settings exist and there
are actual absence days). -/
def absence_penalty_per_day_of (employee : Employee) (db : Db) (s e : Date)
    (company_settings : Option CompanySettings) : ℚ :=
  match company_settings with
  | some cs =>
    if 0 < actual_absence_days_of employee db s e then cs.absence_penalty_amount else 0
  | none => 0

/-- `absence_penalty = actual_absence_days * absence_penalty_per_day` when
the per-day amount is positive, else 0. -/
def absence_penalty_monthly (employee : Employee) (db : Db) (s e : Date)
    (company_settings : Option CompanySettings) : ℚ :=
  let per_day := absence_penalty_per_day_of employee db s e company_settings
  if 0 < per_day then (actual_absence_days_of employee db s e : ℚ) * per_day else 0

/-- `current_date in attendance_dates` (the set of dates of the period's logs). -/
def attendance_dates_of (db : Db) (s e : Date) : Date → Bool :=
  fun d => (attendance_logs_of db s e).any (fun g => g.date == d)

/-- The informational loop appending `'type': 'absence'` excused entries for
expected working days without an attendance record that are leave days (the
fuel is the number of days of `[effective_start, actual_end]`). -/
def absence_excused_go (schedules : List EmployeeSchedule)
    (leave_lookup : Date → Option String) (attendance_dates : Date → Bool)
    (per_day : ℚ) : Date → Nat → List ExcusedEntry → List ExcusedEntry
  | _, 0, acc => acc
  | current, n + 1, acc =>
    let acc' :=
      if !late_class_is_off schedules current.isoweekday && !attendance_dates current then
        match leave_lookup current with
        | some lt =>
          if acc.any (fun ex => ex.date == current) then acc
          else acc ++ [⟨current, lt, 0, per_day, some "absence"⟩]
        | none => acc
      else acc
    absence_excused_go schedules leave_lookup attendance_dates per_day current.next n acc'

/-- The final `excused_days` list of the monthly branch. -/
def excused_days_monthly (employee : Employee) (db : Db) (s e : Date)
    (company_settings : Option CompanySettings) : List ExcusedEntry :=
  let eff_start := effective_start_date_of employee s
  let actual_end := actual_end_date_of db e
  absence_excused_go db.schedules (leave_lookup_of db s e) (attendance_dates_of db s e)
    (absence_penalty_per_day_of employee db s e company_settings) eff_start
    (actual_end.toOrdinal + 1 - eff_start.toOrdinal)
    (excused_with_rate (late_penalty_per_minute_of company_settings)
      (excused_late_of employee db s e))

/-! ### Result assembly -/

/-- The result of `calculate_employee_salary` (the computed values; the
route additionally formats some of them with `round(x, 2)` for display). -/
structure SalaryResult where
  base_salary : ℚ
  salary_type : String
  full_month_work_days : Nat
  daily_rate : ℚ
  worked_days : Nat
  expected_days : Nat
  absence_days : Nat
  leave_rest_count : Nat
  leave_sick_count : Nat
  leave_total_count : Nat
  total_work_hours : ℚ
  late_minutes : Int
  late_details : List LateDetail
  late_penalty_per_minute : ℚ
  auto_late_penalty : ℚ
  absence_penalty : ℚ
  manual_penalty : ℚ
  penalty_count : Nat
  penalty_amount : ℚ
  excused_days : List ExcusedEntry
  bonus_count : Nat
  bonus_amount : ℚ
  calculated_salary : ℚ
  final_salary : ℚ
deriving DecidableEq

def full_month_work_days_res (employee : Employee) (db : Db) (s e : Date) : Nat :=
  if is_monthly employee then full_month_work_days_of db s e else 0

def daily_rate_res (employee : Employee) (db : Db) (s e : Date) : ℚ :=
  if is_monthly employee then
    daily_rate_monthly (base_salary_of employee) (full_month_work_days_of db s e)
  else base_salary_of employee

def calculated_salary_res (employee : Employee) (db : Db) (s e : Date) : ℚ :=
  if is_monthly employee then
    daily_rate_res employee db s e * (worked_days_of db s e : ℚ)
  else base_salary_of employee * (worked_days_of db s e : ℚ)

def expected_days_res (employee : Employee) (db : Db) (s e : Date) : Nat :=
  if is_monthly employee then period_expected_days_of employee db s e else 0

def absence_days_res (employee : Employee) (db : Db) (s e : Date) : Nat :=
  if is_monthly employee then actual_absence_days_of employee db s e else 0

def absence_penalty_res (employee : Employee) (db : Db) (s e : Date)
    (company_settings : Option CompanySettings) : ℚ :=
  if is_monthly employee then absence_penalty_monthly employee db s e company_settings
  else 0

def excused_days_res (employee : Employee) (db : Db) (s e : Date)
    (company_settings : Option CompanySettings) : List ExcusedEntry :=
  if is_monthly employee then excused_days_monthly employee db s e company_settings
  else
    excused_with_rate (late_penalty_per_minute_of company_settings)
      (excused_late_of employee db s e)

/-- `total_penalty_amount = manual_penalty_amount + auto_late_penalty + absence_penalty`. -/
def total_penalty_amount_of (employee : Employee) (db : Db) (s e : Date)
    (company_settings : Option CompanySettings) : ℚ :=
  manual_penalty_amount_of db s e + auto_late_penalty_of employee db s e company_settings
    + absence_penalty_res employee db s e company_settings

/-- `final_salary = calculated − total_penalty + bonuses`, set to 0 if negative. -/
def final_salary_of (employee : Employee) (db : Db) (s e : Date)
    (company_settings : Option CompanySettings) : ℚ :=
  let raw := calculated_salary_res employee db s e
    - total_penalty_amount_of employee db s e company_settings
    + total_bonus_amount_of db s e
  if raw < 0 then 0 else raw

/-- `calculate_employee_salary(employee, start_date, end_date, company_settings)`. -/
def calculate_employee_salary (employee : Employee) (start_date end_date : Date)
    (company_settings : Option CompanySettings) (db : Db) : SalaryResult :=
  { base_salary := base_salary_of employee
    salary_type := salary_type_of employee
    full_month_work_days := full_month_work_days_res employee db start_date end_date
    daily_rate := daily_rate_res employee db start_date end_date
    worked_days := worked_days_of db start_date end_date
    expected_days := expected_days_res employee db start_date end_date
    absence_days := absence_days_res employee db start_date end_date
    leave_rest_count := rest_count_of db start_date end_date
    leave_sick_count := sick_count_of db start_date end_date
    leave_total_count := leave_total_of db start_date end_date
    total_work_hours := (total_work_minutes_of db start_date end_date : ℚ) / 60
    late_minutes := total_late_minutes_of employee db start_date end_date
    late_details := late_details_of employee db start_date end_date
    late_penalty_per_minute := late_penalty_per_minute_of company_settings
    auto_late_penalty := auto_late_penalty_of employee db start_date end_date company_settings
    absence_penalty := absence_penalty_res employee db start_date end_date company_settings
    manual_penalty := manual_penalty_amount_of db start_date end_date
    penalty_count := penalty_count_of db start_date end_date
    penalty_amount := total_penalty_amount_of employee db start_date end_date company_settings
    excused_days := excused_days_res employee db start_date end_date company_settings
    bonus_count := bonus_count_of db start_date end_date
    bonus_amount := total_bonus_amount_of db start_date end_date
    calculated_salary := calculated_salary_res employee db start_date end_date
    final_salary := final_salary_of employee db start_date end_date company_settings }

/-! ## Claims -/

/-- C2.  For every employee and every date range, the engine returns
`final_salary = max(0, calculated_salary − (manual + auto late + absence) + bonuses)`,
hence `final_salary ≥ 0` for all inputs. -/
theorem final_salary_clamped (employee : Employee) (s e : Date)
    (cs : Option CompanySettings) (db : Db) :
    (calculate_employee_salary employee s e cs db).final_salary
      = max 0 ((calculate_employee_salary employee s e cs db).calculated_salary
          - ((calculate_employee_salary employee s e cs db).manual_penalty
              + (calculate_employee_salary employee s e cs db).auto_late_penalty
              + (calculate_employee_salary employee s e cs db).absence_penalty)
          + (calculate_employee_salary employee s e cs db).bonus_amount)
    ∧ 0 ≤ (calculate_employee_salary employee s e cs db).final_salary := by
  constructor
  · show final_salary_of employee db s e cs
      = max 0 (calculated_salary_res employee db s e
          - (manual_penalty_amount_of db s e + auto_late_penalty_of employee db s e cs
              + absence_penalty_res employee db s e cs)
          + total_bonus_amount_of db s e)
    unfold final_salary_of total_penalty_amount_of
    dsimp only
    split_ifs with h
    · exact (max_eq_left (le_of_lt h)).symm
    · exact (max_eq_right (le_of_not_lt h)).symm
  · show 0 ≤ final_salary_of employee db s e cs
    unfold final_salary_of
    dsimp only
    split_ifs with h
    · exact le_refl 0
    · exact le_of_not_lt h

/-- C1.  For a monthly-salary employee the daily rate is anchored to the full
calendar month of `start_date`: `full_month_work_days` is the non-off-day
count of that entire month, `daily_rate = base_salary / full_month_work_days`
(0 when the count is 0), and any two ranges whose start dates share a
calendar month yield the same `daily_rate`. -/
theorem daily_rate_full_month_anchored (employee : Employee) (s e : Date)
    (cs : Option CompanySettings) (db : Db)
    (hm : salary_type_of employee = "monthly") :
    (calculate_employee_salary employee s e cs db).full_month_work_days
        = count_expected_days (expected_is_off db.schedules) s.monthFirst s.monthLast
    ∧ (calculate_employee_salary employee s e cs db).daily_rate
        = (if 0 < (calculate_employee_salary employee s e cs db).full_month_work_days
           then base_salary_of employee
             / ((calculate_employee_salary employee s e cs db).full_month_work_days : ℚ)
           else 0)
    ∧ ∀ s2 e2 : Date, s2.year = s.year → s2.month = s.month →
        (calculate_employee_salary employee s2 e2 cs db).daily_rate
          = (calculate_employee_salary employee s e cs db).daily_rate := by
  have hmono : is_monthly employee = true := by
    unfold is_monthly; rw [hm]; rfl
  refine ⟨?_, ?_, ?_⟩
  · show full_month_work_days_res employee db s e
      = count_expected_days (expected_is_off db.schedules) s.monthFirst s.monthLast
    unfold full_month_work_days_res
    rw [hmono]
    rfl
  · show daily_rate_res employee db s e
      = (if 0 < full_month_work_days_res employee db s e
         then base_salary_of employee / (full_month_work_days_res employee db s e : ℚ)
         else 0)
    unfold daily_rate_res full_month_work_days_res daily_rate_monthly
    rw [hmono]
    rfl
  · intro s2 e2 hy hmn
    show daily_rate_res employee db s2 e2 = daily_rate_res employee db s e
    unfold daily_rate_res daily_rate_monthly full_month_work_days_of
      get_employee_expected_days
    rw [hmono]
    simp only [if_pos, Date.monthFirst, Date.monthLast, hy, hmn]

/-- Witness for `daily_rate_full_month_anchored` at a concrete monthly
employee and two ranges starting in February 2025. -/
theorem daily_rate_full_month_anchored_witness :
    (calculate_employee_salary
        ⟨some 32400, some 64800, some 60, none, some 3000000, some "monthly"⟩
        ⟨2025, 2, 5⟩ ⟨2025, 2, 10⟩ none ⟨[], [], [], [], [], ⟨2025, 3, 1⟩⟩).daily_rate
      = (calculate_employee_salary
        ⟨some 32400, some 64800, some 60, none, some 3000000, some "monthly"⟩
        ⟨2025, 2, 1⟩ ⟨2025, 2, 28⟩ none ⟨[], [], [], [], [], ⟨2025, 3, 1⟩⟩).daily_rate :=
  (daily_rate_full_month_anchored
    ⟨some 32400, some 64800, some 60, none, some 3000000, some "monthly"⟩
    ⟨2025, 2, 1⟩ ⟨2025, 2, 28⟩ none ⟨[], [], [], [], [], ⟨2025, 3, 1⟩⟩ rfl).2.2
    ⟨2025, 2, 5⟩ ⟨2025, 2, 10⟩ rfl rfl

/-- C3.  For a monthly-salary employee (with settings present and a
non-negative per-day absence amount):
`worked_days` counts the attendance rows of the raw requested range,
`leave_days_count` counts the rest+sick rows of that range,
`actual_absence_days = max(0, period_expected_days − worked_days − leave_days_count)`,
and `absence_penalty = actual_absence_days * absence_penalty_amount`. -/
theorem absence_accounting_monthly (employee : Employee) (s e : Date)
    (c : CompanySettings) (db : Db)
    (hm : salary_type_of employee = "monthly")
    (hc : 0 ≤ c.absence_penalty_amount) :
    (calculate_employee_salary employee s e (some c) db).worked_days
        = (db.attendance_logs.filter (fun g => in_range s e g.date)).length
    ∧ (calculate_employee_salary employee s e (some c) db).leave_total_count
        = (leaves_for_period db.leaves s e).countP (fun l => l.leave_type == "rest")
          + (leaves_for_period db.leaves s e).countP (fun l => l.leave_type == "sick")
    ∧ (calculate_employee_salary employee s e (some c) db).absence_days
        = (max 0 (((calculate_employee_salary employee s e (some c) db).expected_days : Int)
            - ((calculate_employee_salary employee s e (some c) db).worked_days : Int)
            - ((calculate_employee_salary employee s e (some c) db).leave_total_count : Int))).toNat
    ∧ (calculate_employee_salary employee s e (some c) db).absence_penalty
        = ((calculate_employee_salary employee s e (some c) db).absence_days : ℚ)
          * c.absence_penalty_amount := by
  have hmono : is_monthly employee = true := by
    unfold is_monthly; rw [hm]; rfl
  refine ⟨rfl, rfl, ?_, ?_⟩
  · show absence_days_res employee db s e
      = (max 0 ((expected_days_res employee db s e : Int)
          - (worked_days_of db s e : Int) - (leave_total_of db s e : Int))).toNat
    unfold absence_days_res expected_days_res
    rw [hmono]
    rfl
  · show absence_penalty_res employee db s e (some c)
      = (absence_days_res employee db s e : ℚ) * c.absence_penalty_amount
    unfold absence_penalty_res absence_days_res absence_penalty_monthly
      absence_penalty_per_day_of
    rw [hmono]
    simp only [if_true]
    rcases Nat.eq_zero_or_pos (actual_absence_days_of employee db s e) with h0 | hpos
    · rw [h0]
      simp
    · rw [if_pos hpos]
      rcases lt_or_eq_of_le hc with hlt | heq
      · rw [if_pos hlt]
      · rw [← heq]
        simp

/-- Witness for `absence_accounting_monthly`: a February 2025 period with one
attendance row, one leave row and three expected-minus-attended days. -/
theorem absence_accounting_monthly_witness :
    (calculate_employee_salary
        ⟨some 32400, some 64800, some 60, none, some 3000000, some "monthly"⟩
        ⟨2025, 2, 3⟩ ⟨2025, 2, 7⟩ (some ⟨15, true, 1000, 50000⟩)
        ⟨[], [⟨⟨2025, 2, 3⟩, none, none, some 0, some 0, some 0, some 480, none, none, none⟩],
          [⟨1, ⟨2025, 2, 4⟩, "rest", ""⟩], [], [], ⟨2025, 3, 1⟩⟩).absence_penalty
      = ((calculate_employee_salary
        ⟨some 32400, some 64800, some 60, none, some 3000000, some "monthly"⟩
        ⟨2025, 2, 3⟩ ⟨2025, 2, 7⟩ (some ⟨15, true, 1000, 50000⟩)
        ⟨[], [⟨⟨2025, 2, 3⟩, none, none, some 0, some 0, some 0, some 480, none, none, none⟩],
          [⟨1, ⟨2025, 2, 4⟩, "rest", ""⟩], [], [], ⟨2025, 3, 1⟩⟩).absence_days : ℚ) * 50000 :=
  (absence_accounting_monthly
    ⟨some 32400, some 64800, some 60, none, some 3000000, some "monthly"⟩
    ⟨2025, 2, 3⟩ ⟨2025, 2, 7⟩ ⟨15, true, 1000, 50000⟩
    ⟨[], [⟨⟨2025, 2, 3⟩, none, none, some 0, some 0, some 0, some 480, none, none, none⟩],
      [⟨1, ⟨2025, 2, 4⟩, "rest", ""⟩], [], [], ⟨2025, 3, 1⟩⟩ rfl (by norm_num)).2.2.2

/-- C5 counterexample.  The claim says that with no `WeeklySchedule` row for
(employee, weekday) the resolver returns the default policy — in particular
`is_day_off = true` with null times on a Saturday.  On 2025-02-01 (a
Saturday, `isoweekday = 6`) with no schedule rows at all, the
attendance-service resolver instead returns the employee's default work
times with `is_day_off = false`; and for an employee who has a row only for
Monday, the payroll-side dict lookup marks Tuesday (`isoweekday = 2`,
no row) as off, where the claimed default policy says 09:00-18:00 working. -/
theorem resolver_default_policy_cex :
    (Date.mk 2025 2 1).isoweekday = 6
    ∧ get_employee_work_time_for_date
        ⟨some 28800, some 61200, some 60, none, some 1000000, some "monthly"⟩
        [] (Date.mk 2025 2 1)
      = (some 28800, some 61200, false)
    ∧ expected_is_off [⟨1, some 32400, some 64800, false⟩] 2 = true := by
  refine ⟨by decide, rfl, by decide⟩

/-- C5 amended.  What the code actually does when no `WeeklySchedule` row
exists for (employee, isoweekday(date)):
the attendance-service resolver always falls back to the employee's own
default `work_start_time`/`work_end_time` with `is_day_off = false`;
the payroll-side `schedule_dict` applies the default Mon-Fri 09:00-18:00 /
Sat-Sun-off policy only when the employee has no schedule rows at all, and
when some rows exist it treats a weekday without a row as a day off. -/
theorem resolver_fallback_amended :
    (∀ (employee : Employee) (schedules : List EmployeeSchedule) (d : Date),
        schedules.find? (fun sc => sc.day_of_week == d.isoweekday) = none →
        get_employee_work_time_for_date employee schedules d
          = (employee.work_start_time, employee.work_end_time, false))
    ∧ (∀ day_of_week : Nat, 1 ≤ day_of_week → day_of_week ≤ 5 →
        schedule_dict_entry [] day_of_week = some ⟨some 32400, some 64800, false⟩)
    ∧ (∀ day_of_week : Nat, day_of_week = 6 ∨ day_of_week = 7 →
        schedule_dict_entry [] day_of_week = some ⟨none, none, true⟩)
    ∧ (∀ (schedules : List EmployeeSchedule) (day_of_week : Nat),
        schedules ≠ [] →
        schedules.reverse.find? (fun sc => sc.day_of_week == day_of_week) = none →
        expected_is_off schedules day_of_week = true) := by
  refine ⟨?_, ?_, ?_, ?_⟩
  · intro employee schedules d hfind
    unfold get_employee_work_time_for_date
    dsimp only
    rw [hfind]
  · intro dow h1 h5
    unfold schedule_dict_entry default_schedule
    simp [h1, h5]
  · intro dow h67
    unfold schedule_dict_entry default_schedule
    rcases h67 with h | h <;> subst h <;> simp
  · intro schedules dow hne hfind
    unfold expected_is_off schedule_dict_entry
    rw [if_neg (by simpa using hne), hfind]
    rfl

/-- Witness for `resolver_fallback_amended`: concrete instances of all four
fallback behaviors. -/
theorem resolver_fallback_amended_witness :
    get_employee_work_time_for_date
        ⟨some 28800, some 61200, some 60, none, some 1000000, some "monthly"⟩
        [] (Date.mk 2025 2 1)
      = (some 28800, some 61200, false)
    ∧ schedule_dict_entry [] 3 = some ⟨some 32400, some 64800, false⟩
    ∧ schedule_dict_entry [] 7 = some ⟨none, none, true⟩
    ∧ expected_is_off [⟨1, some 32400, some 64800, false⟩] 2 = true :=
  ⟨resolver_fallback_amended.1
      ⟨some 28800, some 61200, some 60, none, some 1000000, some "monthly"⟩
      [] (Date.mk 2025 2 1) rfl,
   resolver_fallback_amended.2.1 3 (by decide) (by decide),
   resolver_fallback_amended.2.2.1 7 (Or.inr rfl),
   resolver_fallback_amended.2.2.2 [⟨1, some 32400, some 64800, false⟩] 2
     (by decide) (by decide)⟩

/-- C6.  The spec requires the Attendance Processor and the Payroll Engine
to resolve `is_day_off` identically; the code does not.  Failing input: an
employee with no `WeeklySchedule` rows on Saturday 2025-02-01.  The
attendance-service resolver (used for lateness/overtime) yields
`is_day_off = false`, while both payroll-side lookups (expected-day counting
and late-day classification) treat the same date as off. -/
theorem processor_payroll_resolver_divergence :
    (get_employee_work_time_for_date
        ⟨some 28800, some 61200, some 60, none, some 1000000, some "monthly"⟩
        [] (Date.mk 2025 2 1)).2.2 = false
    ∧ expected_is_off [] (Date.mk 2025 2 1).isoweekday = true
    ∧ late_class_is_off [] (Date.mk 2025 2 1).isoweekday = true := by
  refine ⟨rfl, by decide, by decide⟩

/-- C7.  If an attendance row already exists for the employee on the
check-in's date with a non-null `check_in_time`, a later check-in is
rejected silently: the table is unchanged and the existing record is
returned with every field (first check-in time, late minutes, device
metadata) intact. -/
theorem duplicate_check_in_returns_existing (employee : Employee)
    (schedules : List EmployeeSchedule) (cs : Option CompanySettings)
    (logs : List AttendanceLog) (ts : Timestamp) (dev : Option DeviceInfo)
    (log : AttendanceLog) (t0 : Timestamp)
    (hfind : logs.find? (fun l => l.date == ts.date) = some log)
    (hin : log.check_in_time = some t0)
    (hlater : t0.toSec < ts.toSec) :
    process_check_in employee schedules cs logs ts dev = (logs, log) := by
  unfold process_check_in
  dsimp only
  rw [hfind]
  simp [hin]

/-- Witness for `duplicate_check_in_returns_existing`: a second check-in at
10:00 after a 09:00 check-in on 2025-02-03 returns the 09:00 record. -/
theorem duplicate_check_in_returns_existing_witness :
    process_check_in
        ⟨some 32400, some 64800, some 60, none, some 3000000, some "monthly"⟩
        [] none
        [⟨⟨2025, 2, 3⟩, some ⟨⟨2025, 2, 3⟩, 32400⟩, none, some 0, some 0, some 0,
          some 0, none, none, none⟩]
        ⟨⟨2025, 2, 3⟩, 36000⟩ none
      = ([⟨⟨2025, 2, 3⟩, some ⟨⟨2025, 2, 3⟩, 32400⟩, none, some 0, some 0, some 0,
          some 0, none, none, none⟩],
         ⟨⟨2025, 2, 3⟩, some ⟨⟨2025, 2, 3⟩, 32400⟩, none, some 0, some 0, some 0,
          some 0, none, none, none⟩) :=
  duplicate_check_in_returns_existing
    ⟨some 32400, some 64800, some 60, none, some 3000000, some "monthly"⟩
    [] none
    [⟨⟨2025, 2, 3⟩, some ⟨⟨2025, 2, 3⟩, 32400⟩, none, some 0, some 0, some 0,
      some 0, none, none, none⟩]
    ⟨⟨2025, 2, 3⟩, 36000⟩ none
    ⟨⟨2025, 2, 3⟩, some ⟨⟨2025, 2, 3⟩, 32400⟩, none, some 0, some 0, some 0,
      some 0, none, none, none⟩
    ⟨⟨2025, 2, 3⟩, 32400⟩ rfl rfl (by decide)

/-- C10.  With no `CompanySettings` row the check-in grace period defaults
to 15 minutes: on a non-off day with a scheduled start and no prior row for
the date, the created record has
`late_minutes = floor(minutes_from_start − 15)` when the check-in is more
than 15 minutes after the scheduled start, and 0 otherwise. -/
theorem check_in_grace_defaults_15 (employee : Employee)
    (schedules : List EmployeeSchedule) (logs : List AttendanceLog)
    (ts : Timestamp) (dev : Option DeviceInfo) (ws : Nat) (we : Option Nat)
    (hres : get_employee_work_time_for_date employee schedules ts.date
      = (some ws, we, false))
    (hnolog : logs.find? (fun l => l.date == ts.date) = none) :
    (process_check_in employee schedules none logs ts dev).2.late_minutes
      = some (if 60 * 15 < (ts.sec : Int) - (ws : Int)
              then (((((ts.sec : Int) - (ws : Int)) - 60 * 15).toNat / 60 : Nat) : Int)
              else 0) := by
  unfold process_check_in
  dsimp only
  rw [hres, hnolog]
  unfold late_minutes_for grace_period_of
  cases dev <;> simp [apply_device_info]

/-- Witness for `check_in_grace_defaults_15`: checking in 20½ minutes after
a 09:00 start with no settings row yields `late_minutes = 5`. -/
theorem check_in_grace_defaults_15_witness :
    (process_check_in
        ⟨some 32400, some 64800, some 60, none, some 3000000, some "monthly"⟩
        [] none [] ⟨⟨2025, 2, 3⟩, 33630⟩ none).2.late_minutes
      = some (if 60 * 15 < ((33630 : Nat) : Int) - ((32400 : Nat) : Int)
              then ((((((33630 : Nat) : Int) - ((32400 : Nat) : Int)) - 60 * 15).toNat / 60 : Nat) : Int)
              else 0) :=
  check_in_grace_defaults_15
    ⟨some 32400, some 64800, some 60, none, some 3000000, some "monthly"⟩
    [] [] ⟨⟨2025, 2, 3⟩, 33630⟩ none 32400 (some 64800) rfl rfl

/-- C8 counterexample.  The claim says exactly one of `early_leave_minutes`
and `overtime_minutes` is non-zero.  Checking out exactly at the scheduled
end (17:00 = 61200 s, the employee-default end used since there are no
schedule rows) on a working Monday leaves both equal to 0. -/
theorem check_out_equal_end_cex :
    (process_check_out
        ⟨some 28800, some 61200, some 60, none, some 1000000, some "monthly"⟩
        []
        [⟨⟨2025, 2, 3⟩, some ⟨⟨2025, 2, 3⟩, 32400⟩, none, some 0, some 0, some 0,
          some 0, none, none, none⟩]
        ⟨⟨2025, 2, 3⟩, 61200⟩).toOption.map
      (fun pr => (pr.2.early_leave_minutes, pr.2.overtime_minutes))
    = some (some 0, some 0) := by
  decide

/-- C8 amended.  For a checkout on a day that is not off and has a scheduled
`work_end`, the signed difference between the checkout time and the
scheduled end determines the result — negative yields
`early_leave_minutes = floor(|diff| minutes)`, non-negative yields
`overtime_minutes = floor(diff minutes)` — and at most one of the two is
non-zero (both are 0 when the checkout is within a minute of, or exactly
at, the scheduled end). -/
theorem check_out_signed_difference (employee : Employee)
    (schedules : List EmployeeSchedule) (logs : List AttendanceLog)
    (ts : Timestamp) (log : AttendanceLog) (ci : Timestamp)
    (wsO : Option Nat) (we : Nat)
    (hfind : logs.find? (fun l => l.date == ts.date) = some log)
    (hci : log.check_in_time = some ci)
    (hres : get_employee_work_time_for_date employee schedules ts.date
      = (wsO, some we, false)) :
    ∃ st r, process_check_out employee schedules logs ts = .ok (st, r)
      ∧ r.early_leave_minutes
          = some (if (ts.sec : Int) - (we : Int) < 0
                  then ((((we : Int) - (ts.sec : Int)).toNat / 60 : Nat) : Int)
                  else 0)
      ∧ r.overtime_minutes
          = some (if (ts.sec : Int) - (we : Int) < 0
                  then 0
                  else ((((ts.sec : Int) - (we : Int)).toNat / 60 : Nat) : Int))
      ∧ (r.early_leave_minutes = some 0 ∨ r.overtime_minutes = some 0) := by
  unfold process_check_out
  dsimp only
  rw [hfind]
  dsimp only
  rw [hci]
  dsimp only
  rw [hres]
  dsimp only
  simp only [Bool.false_eq_true, if_false]
  rcases lt_or_le ((ts.sec : Int) - (we : Int)) 0 with h | h
  · simp only [if_pos h]
    refine ⟨_, _, rfl, ?_, rfl, Or.inr rfl⟩
    dsimp only
    rw [neg_sub]
  · simp only [if_neg (not_lt.mpr h)]
    exact ⟨_, _, rfl, rfl, rfl, Or.inl rfl⟩

/-- Witness for `check_out_signed_difference`: a 16:59 checkout against a
17:00 scheduled end is one minute early, zero overtime. -/
theorem check_out_signed_difference_witness :
    ∃ st r, process_check_out
        ⟨some 28800, some 61200, some 60, none, some 1000000, some "monthly"⟩
        []
        [⟨⟨2025, 2, 3⟩, some ⟨⟨2025, 2, 3⟩, 32400⟩, none, some 0, some 0, some 0,
          some 0, none, none, none⟩]
        ⟨⟨2025, 2, 3⟩, 61140⟩ = .ok (st, r)
      ∧ r.early_leave_minutes
          = some (if ((61140 : Nat) : Int) - ((61200 : Nat) : Int) < 0
                  then (((((61200 : Nat) : Int) - ((61140 : Nat) : Int)).toNat / 60 : Nat) : Int)
                  else 0)
      ∧ r.overtime_minutes
          = some (if ((61140 : Nat) : Int) - ((61200 : Nat) : Int) < 0
                  then 0
                  else (((((61140 : Nat) : Int) - ((61200 : Nat) : Int)).toNat / 60 : Nat) : Int))
      ∧ (r.early_leave_minutes = some 0 ∨ r.overtime_minutes = some 0) :=
  check_out_signed_difference
    ⟨some 28800, some 61200, some 60, none, some 1000000, some "monthly"⟩
    []
    [⟨⟨2025, 2, 3⟩, some ⟨⟨2025, 2, 3⟩, 32400⟩, none, some 0, some 0, some 0,
      some 0, none, none, none⟩]
    ⟨⟨2025, 2, 3⟩, 61140⟩
    ⟨⟨2025, 2, 3⟩, some ⟨⟨2025, 2, 3⟩, 32400⟩, none, some 0, some 0, some 0,
      some 0, none, none, none⟩
    ⟨⟨2025, 2, 3⟩, 32400⟩ (some 28800) 61200 rfl rfl rfl

/-- C9.  `setLeave` rejects a create or type-changing update exactly when the
count of existing leave rows of the target type in the calendar month of the
leave's own date (excluding the row being updated, if any) reaches the limit
(rest: 2, sick: 20), leaving the ledger unchanged; below the limit the write
succeeds, and re-writing the same type for an already-set date is a no-op
success. -/
theorem set_leave_quota_enforcement (ledger : List EmployeeLeave) (d : Date)
    (lt reason : String) (nid : Nat)
    (hlt : lt = "rest" ∨ lt = "sick") :
    (∀ ex, ledger.find? (fun l => l.date == d) = some ex →
      (ex.leave_type = lt →
        set_employee_leave ledger d lt reason nid = (.noop, ledger))
      ∧ (ex.leave_type ≠ lt →
        ((monthly_limit_for lt ≤ ((ledger.filter
              (fun l => Date.le d.monthFirst l.date && Date.le l.date d.monthLast)).filter
              (fun l => l.leave_type == lt && l.id != ex.id)).length)
          ↔ set_employee_leave ledger d lt reason nid = (.quota_exceeded, ledger))
        ∧ (((ledger.filter
              (fun l => Date.le d.monthFirst l.date && Date.le l.date d.monthLast)).filter
              (fun l => l.leave_type == lt && l.id != ex.id)).length < monthly_limit_for lt →
            set_employee_leave ledger d lt reason nid
              = (.updated, updateFirst (fun l => l.date == d)
                  (fun l => { l with leave_type := lt, reason := reason }) ledger))))
    ∧ (ledger.find? (fun l => l.date == d) = none →
        ((monthly_limit_for lt ≤ ((ledger.filter
              (fun l => Date.le d.monthFirst l.date && Date.le l.date d.monthLast)).filter
              (fun l => l.leave_type == lt)).length)
          ↔ set_employee_leave ledger d lt reason nid = (.quota_exceeded, ledger))
        ∧ (((ledger.filter
              (fun l => Date.le d.monthFirst l.date && Date.le l.date d.monthLast)).filter
              (fun l => l.leave_type == lt)).length < monthly_limit_for lt →
            set_employee_leave ledger d lt reason nid
              = (.created, ledger ++ [⟨nid, d, lt, reason⟩]))) := by
  rcases hlt with h | h <;> subst h <;>
  · constructor
    · intro ex hfind
      constructor
      · intro heq
        unfold set_employee_leave
        dsimp only
        rw [hfind]
        simp [heq]
      · intro hne
        have hb := beq_eq_false_iff_ne.mpr hne
        constructor
        · rcases Nat.lt_or_ge ((ledger.filter
              (fun l => Date.le d.monthFirst l.date && Date.le l.date d.monthLast)).filter
              (fun l => l.leave_type == _ && l.id != ex.id)).length _
            with hc | hc
          · constructor
            · intro hle
              exact absurd (by simpa [monthly_limit_for] using hle) (Nat.not_le.mpr hc)
            · intro hres
              exfalso
              revert hres
              unfold set_employee_leave
              dsimp only
              rw [hfind]
              simp [hb, Nat.not_le.mpr hc]
              all_goals simpa [List.filter_filter] using hc
          · constructor
            · intro _
              unfold set_employee_leave
              dsimp only
              rw [hfind]
              simp [hb, hc]
              all_goals simpa [List.filter_filter] using hc
            · intro _
              simpa [monthly_limit_for] using hc
        · intro hc
          simp only [monthly_limit_for] at hc
          unfold set_employee_leave
          dsimp only
          rw [hfind]
          simp [hb, Nat.not_le.mpr (by simpa using hc)]
          all_goals simpa [List.filter_filter] using hc
    · intro hfind
      constructor
      · rcases Nat.lt_or_ge ((ledger.filter
            (fun l => Date.le d.monthFirst l.date && Date.le l.date d.monthLast)).filter
            (fun l => l.leave_type == _)).length _ with hc | hc
        · constructor
          · intro hle
            exact absurd (by simpa [monthly_limit_for] using hle) (Nat.not_le.mpr hc)
          · intro hres
            exfalso
            revert hres
            unfold set_employee_leave
            dsimp only
            rw [hfind]
            simp [Nat.not_le.mpr hc]
            all_goals simpa [List.filter_filter] using hc
        · constructor
          · intro _
            unfold set_employee_leave
            dsimp only
            rw [hfind]
            simp [hc]
            all_goals simpa [List.filter_filter] using hc
          · intro _
            simpa [monthly_limit_for] using hc
      · intro hc
        simp only [monthly_limit_for] at hc
        unfold set_employee_leave
        dsimp only
        rw [hfind]
        simp [Nat.not_le.mpr (by simpa using hc)]
        all_goals simpa [List.filter_filter] using hc

/-- Witness for `set_leave_quota_enforcement`: a third rest leave in
February 2025 is rejected with the ledger unchanged. -/
theorem set_leave_quota_enforcement_witness :
    set_employee_leave
        [⟨1, ⟨2025, 2, 10⟩, "rest", ""⟩, ⟨2, ⟨2025, 2, 11⟩, "rest", ""⟩]
        ⟨2025, 2, 12⟩ "rest" "" 99
      = (.quota_exceeded,
         [⟨1, ⟨2025, 2, 10⟩, "rest", ""⟩, ⟨2, ⟨2025, 2, 11⟩, "rest", ""⟩]) :=
  ((set_leave_quota_enforcement
      [⟨1, ⟨2025, 2, 10⟩, "rest", ""⟩, ⟨2, ⟨2025, 2, 11⟩, "rest", ""⟩]
      ⟨2025, 2, 12⟩ "rest" "" 99 (Or.inl rfl)).2 (by decide)).1.mp (by decide)

/-- The informational absence loop only appends entries, so membership in the
accumulator is preserved. -/
theorem mem_absence_excused_go (schedules : List EmployeeSchedule)
    (leave_lookup : Date → Option String) (attendance_dates : Date → Bool)
    (per_day : ℚ) (x : ExcusedEntry) :
    ∀ (n : Nat) (current : Date) (acc : List ExcusedEntry), x ∈ acc →
      x ∈ absence_excused_go schedules leave_lookup attendance_dates per_day current n acc := by
  intro n
  induction n with
  | zero =>
    intro current acc hx
    simpa [absence_excused_go] using hx
  | succ n ih =>
    intro current acc hx
    unfold absence_excused_go
    dsimp only
    apply ih
    split
    · split
      · split
        · exact hx
        · exact List.mem_append_left _ hx
      · exact hx
    · exact hx

/-- A `leave` bucket is never `counted`. -/
theorem leave_beq_counted (lt : String) :
    (LateBucket.leave lt == LateBucket.counted) = false := rfl

/-- Removing the attendance rows of a date that classifies as a leave day
does not change `total_late_minutes` (such rows are never counted). -/
theorem total_late_minutes_filter_ne (employee : Employee) (db : Db) (s e : Date)
    (gd : Date) (lt : String)
    (hcls : classify_of employee db s e gd = .leave lt) :
    total_late_minutes_of employee
        { db with attendance_logs := db.attendance_logs.filter (fun l => l.date != gd) } s e
      = total_late_minutes_of employee db s e := by
  have hdb : classify_of employee
      { db with attendance_logs := db.attendance_logs.filter (fun l => l.date != gd) } s e
      = classify_of employee db s e := rfl
  unfold total_late_minutes_of late_logs_of attendance_logs_of
  dsimp only
  rw [hdb]
  simp only [List.filter_filter]
  congr 1
  congr 1
  apply List.filter_congr
  intro a _
  by_cases hd : a.date = gd
  · have hC : classify_of employee db s e a.date = .leave lt := by rw [hd, hcls]
    simp [hC, leave_beq_counted]
  · have hbne : (a.date != gd) = true := bne_iff_ne.mpr hd
    simp [hbne]

/-- C4.  An attendance record in range with positive lateness whose date is
in the leave ledger (and is neither an off day nor before the hire date) is
excused: an entry with the leave type as reason and
`penalty_saved = late_minutes * late_penalty_per_minute` joins
`excused_days`, no `late_details` entry carries its date, and removing the
date's records leaves `total_late_minutes` unchanged (its minutes are
excluded). -/
theorem leave_day_late_excused (employee : Employee) (s e : Date)
    (cs : Option CompanySettings) (db : Db) (g : AttendanceLog) (m : Int)
    (lt : String)
    (hmem : g ∈ db.attendance_logs)
    (hrange : in_range s e g.date = true)
    (hlm : g.late_minutes = some m)
    (hm : 0 < m)
    (hoff : late_class_is_off db.schedules g.date.isoweekday = false)
    (hhire : ∀ hd, employee.hire_date = some hd → Date.lt g.date hd = false)
    (hleave : leave_lookup_of db s e g.date = some lt)
    (hrate : 0 ≤ late_penalty_per_minute_of cs) :
    (⟨g.date, lt, m,
        (m : ℚ) * (calculate_employee_salary employee s e cs db).late_penalty_per_minute,
        none⟩ : ExcusedEntry)
      ∈ (calculate_employee_salary employee s e cs db).excused_days
    ∧ (∀ dt ∈ (calculate_employee_salary employee s e cs db).late_details,
        dt.date ≠ g.date)
    ∧ (calculate_employee_salary employee s e cs db).late_minutes
        = (calculate_employee_salary employee s e cs
            { db with attendance_logs :=
                db.attendance_logs.filter (fun l => l.date != g.date) }).late_minutes := by
  have hcls : classify_of employee db s e g.date = .leave lt := by
    unfold classify_of classify_late
    rcases hh : employee.hire_date with _ | hd
    · simp [hoff, hleave]
    · simp [hoff, hhire hd hh, hleave]
  refine ⟨?_, ?_, ?_⟩
  · have h1 : g ∈ late_logs_of db s e := by
      unfold late_logs_of attendance_logs_of
      refine List.mem_filter.mpr ⟨List.mem_filter.mpr ⟨hmem, hrange⟩, ?_⟩
      rw [hlm]
      simpa using hm
    have hpre : (⟨g.date, lt, m, 0, none⟩ : ExcusedEntry)
        ∈ excused_late_of employee db s e := by
      unfold excused_late_of
      refine List.mem_filterMap.mpr ⟨g, h1, ?_⟩
      rw [hcls, hlm]
      rfl
    have hmid : (⟨g.date, lt, m, (m : ℚ) * late_penalty_per_minute_of cs, none⟩ : ExcusedEntry)
        ∈ excused_with_rate (late_penalty_per_minute_of cs)
            (excused_late_of employee db s e) := by
      unfold excused_with_rate
      rcases lt_or_eq_of_le hrate with hpos | h0
      · rw [if_pos hpos]
        exact List.mem_map.mpr ⟨⟨g.date, lt, m, 0, none⟩, hpre, rfl⟩
      · rw [if_neg (by rw [← h0]; exact lt_irrefl 0)]
        have hz : (m : ℚ) * late_penalty_per_minute_of cs = 0 := by
          rw [← h0, mul_zero]
        rw [show (⟨g.date, lt, m, (m : ℚ) * late_penalty_per_minute_of cs, none⟩ : ExcusedEntry)
          = ⟨g.date, lt, m, 0, none⟩ from by rw [hz]]
        exact hpre
    show _ ∈ excused_days_res employee db s e cs
    unfold excused_days_res
    split_ifs with him
    · unfold excused_days_monthly
      exact mem_absence_excused_go _ _ _ _ _ _ _ _ hmid
    · exact hmid
  · intro dt hdt
    have hdt' : dt ∈ late_details_of employee db s e := hdt
    unfold late_details_of at hdt'
    rcases List.mem_filterMap.mp hdt' with ⟨a, _, hsome⟩
    by_cases hC : classify_of employee db s e a.date = .counted
    · rw [if_pos (by rw [hC]; rfl)] at hsome
      have hdate : dt.date = a.date := by
        rw [← Option.some.inj hsome]
      intro hEq
      rw [hdate] at hEq
      rw [hEq, hcls] at hC
      exact LateBucket.noConfusion hC
    · rw [if_neg (by simpa using hC)] at hsome
      exact absurd hsome (by simp)
  · exact (total_late_minutes_filter_ne employee db s e g.date lt hcls).symm

/-- Witness for `leave_day_late_excused`: a record 30 minutes late on
2025-02-05, a date marked `sick`, with a 1000-per-minute penalty rate. -/
theorem leave_day_late_excused_witness :
    (⟨⟨2025, 2, 5⟩, "sick", 30,
        (30 : ℚ) * (calculate_employee_salary
          ⟨some 32400, some 64800, some 60, none, some 3000000, some "monthly"⟩
          ⟨2025, 2, 5⟩ ⟨2025, 2, 5⟩ (some ⟨15, true, 1000, 50000⟩)
          ⟨[], [⟨⟨2025, 2, 5⟩, some ⟨⟨2025, 2, 5⟩, 34200⟩, none, some 30, some 0,
              some 0, some 480, none, none, none⟩],
            [⟨1, ⟨2025, 2, 5⟩, "sick", ""⟩], [], [], ⟨2025, 3, 1⟩⟩).late_penalty_per_minute,
        none⟩ : ExcusedEntry)
      ∈ (calculate_employee_salary
          ⟨some 32400, some 64800, some 60, none, some 3000000, some "monthly"⟩
          ⟨2025, 2, 5⟩ ⟨2025, 2, 5⟩ (some ⟨15, true, 1000, 50000⟩)
          ⟨[], [⟨⟨2025, 2, 5⟩, some ⟨⟨2025, 2, 5⟩, 34200⟩, none, some 30, some 0,
              some 0, some 480, none, none, none⟩],
            [⟨1, ⟨2025, 2, 5⟩, "sick", ""⟩], [], [], ⟨2025, 3, 1⟩⟩).excused_days
    ∧ (∀ dt ∈ (calculate_employee_salary
          ⟨some 32400, some 64800, some 60, none, some 3000000, some "monthly"⟩
          ⟨2025, 2, 5⟩ ⟨2025, 2, 5⟩ (some ⟨15, true, 1000, 50000⟩)
          ⟨[], [⟨⟨2025, 2, 5⟩, some ⟨⟨2025, 2, 5⟩, 34200⟩, none, some 30, some 0,
              some 0, some 480, none, none, none⟩],
            [⟨1, ⟨2025, 2, 5⟩, "sick", ""⟩], [], [], ⟨2025, 3, 1⟩⟩).late_details,
        dt.date ≠ ⟨2025, 2, 5⟩)
    ∧ (calculate_employee_salary
          ⟨some 32400, some 64800, some 60, none, some 3000000, some "monthly"⟩
          ⟨2025, 2, 5⟩ ⟨2025, 2, 5⟩ (some ⟨15, true, 1000, 50000⟩)
          ⟨[], [⟨⟨2025, 2, 5⟩, some ⟨⟨2025, 2, 5⟩, 34200⟩, none, some 30, some 0,
              some 0, some 480, none, none, none⟩],
            [⟨1, ⟨2025, 2, 5⟩, "sick", ""⟩], [], [], ⟨2025, 3, 1⟩⟩).late_minutes
        = (calculate_employee_salary
          ⟨some 32400, some 64800, some 60, none, some 3000000, some "monthly"⟩
          ⟨2025, 2, 5⟩ ⟨2025, 2, 5⟩ (some ⟨15, true, 1000, 50000⟩)
          { schedules := [],
            attendance_logs := [⟨⟨2025, 2, 5⟩, some ⟨⟨2025, 2, 5⟩, 34200⟩, none,
              some 30, some 0, some 0, some 480, none, none, none⟩].filter
                (fun l => l.date != ⟨2025, 2, 5⟩),
            leaves := [⟨1, ⟨2025, 2, 5⟩, "sick", ""⟩], penalties := [], bonuses := [],
            today := ⟨2025, 3, 1⟩ }).late_minutes :=
  leave_day_late_excused
    ⟨some 32400, some 64800, some 60, none, some 3000000, some "monthly"⟩
    ⟨2025, 2, 5⟩ ⟨2025, 2, 5⟩ (some ⟨15, true, 1000, 50000⟩)
    ⟨[], [⟨⟨2025, 2, 5⟩, some ⟨⟨2025, 2, 5⟩, 34200⟩, none, some 30, some 0,
        some 0, some 480, none, none, none⟩],
      [⟨1, ⟨2025, 2, 5⟩, "sick", ""⟩], [], [], ⟨2025, 3, 1⟩⟩
    ⟨⟨2025, 2, 5⟩, some ⟨⟨2025, 2, 5⟩, 34200⟩, none, some 30, some 0, some 0,
      some 480, none, none, none⟩
    30 "sick"
    (List.mem_singleton.mpr rfl)
    (by decide) rfl (by decide) (by decide)
    (fun hd h => Option.noConfusion h)
    rfl
    (by norm_num [late_penalty_per_minute_of])

end FaceId
